import Mathlib

/-!
Verification of the webwire-go client connection logic vendored in this
repository (`vendor/github.com/qbeon/webwire-go/client/connect.go`).

The client is embedded shallowly: the mutable fields of `Client` that
`connect` and its read loop touch become a Lean structure, the external
calls (`verifyProtocolVersion`, `conn.Dial`, `requestSessionRestoration`)
become an environment record holding their results, and the side effects
(logging, dialing, spawning the reader goroutine, issuing the session
restoration request) are recorded in an explicit effect trace so that
ordering and occurrence of the operations can be stated.
-/

namespace Webwire

/-- Connection status of the client. `StatConnected`, `StatDisconnected` and
`StatDisabled` appear in `connect.go`; the constants file itself is not part
of this repository snapshot, so the full enumeration is modelled from the
spec's data model: `{Disabled, Disconnected, Connecting, Connected}`. -/
inductive Status where
  | Disabled
  | Disconnected
  | Connecting
  | Connected
deriving DecidableEq, Repr

/-- A client session; only the restoration key is read by `connect`. -/
structure Session where
  Key : String
deriving DecidableEq, Repr

/-- Error values surfaced by the modelled operations. -/
inductive Err where
  | IncompatibleProtocol
  | DialError
  | Timeout
  | AbnormalClosure
  | SessionRestorationFailed
  | Other (msg : String)
deriving DecidableEq, Repr

/-- The mutable client state touched by `connect` and the read loop:
`clt.status` (atomic int), `clt.session` (under `sessionLock`) and the
`clt.autoconnect` flag. -/
structure Client where
  status : Status
  session : Option Session
  autoconnect : Bool
deriving DecidableEq, Repr

/-- Observable side effects of `connect`, in the order the code performs
them: protocol verification, dialing the transport, spawning the reader
goroutine, issuing the session restoration request, and the warning log
emitted when restoration fails. -/
inductive Effect where
  | verifyProtocol
  | dial
  | startReadLoop
  | restorationRequest
  | warnLog
deriving DecidableEq, Repr

/-- Results of the external calls made by `connect`:
`verifyProtocolVersion()` (an error or success), `conn.Dial(serverAddr)`
(an error or success), and `requestSessionRestoration(key)` (a restored
session or an error). -/
structure ConnectEnv where
  verifyResult : Option Err
  dialResult : Option Err
  restorationResult : Except Err Session
deriving Repr

/-- Outcome of a `connect()` call: the client state after the call, the
returned error (`none` is Go's `nil`), and the trace of effects. -/
structure ConnectOutcome where
  client : Client
  result : Option Err
  effects : List Effect
deriving Repr

/-- Shallow embedding of `Client.connect` from `connect.go`.

Line by line: if the status is already `StatConnected` return `nil`;
otherwise verify the protocol version (returning its error on failure),
dial the transport (returning its error on failure), spawn the reader
goroutine, store `StatConnected`, and, if a session is stored, request its
restoration — on restoration failure log a warning, reset the session to
`nil` and still return `nil`; on success store the restored session. -/
def connect (clt : Client) (env : ConnectEnv) : ConnectOutcome :=
  if clt.status = Status.Connected then
    ⟨clt, none, []⟩
  else
    match env.verifyResult with
    | some e => ⟨clt, some e, [Effect.verifyProtocol]⟩
    | none =>
      match env.dialResult with
      | some e => ⟨clt, some e, [Effect.verifyProtocol, Effect.dial]⟩
      | none =>
        let clt1 : Client := { clt with status := Status.Connected }
        match clt1.session with
        | none =>
          ⟨clt1, none, [Effect.verifyProtocol, Effect.dial, Effect.startReadLoop]⟩
        | some _ =>
          match env.restorationResult with
          | Except.error _ =>
            ⟨{ clt1 with session := none }, none,
             [Effect.verifyProtocol, Effect.dial, Effect.startReadLoop,
              Effect.restorationRequest, Effect.warnLog]⟩
          | Except.ok restored =>
            ⟨{ clt1 with session := some restored }, none,
             [Effect.verifyProtocol, Effect.dial, Effect.startReadLoop,
              Effect.restorationRequest]⟩

/-- Outcome of the read loop's error-handling block: the client state
afterwards, whether `clt.hooks.OnDisconnected()` was invoked, and whether
the spawned goroutine invoked `clt.tryAutoconnect(0)`. -/
structure ReadErrOutcome where
  client : Client
  disconnectHookCalled : Bool
  reconnectAttempted : Bool
deriving DecidableEq, Repr

/-- Shallow embedding of the error branch of the reader goroutine in
`Client.connect`: on a read error the code stores `StatDisconnected` if the
status was `StatConnected`, unconditionally invokes the `OnDisconnected`
hook, and spawns a goroutine that calls `tryAutoconnect` exactly when
`clt.autoconnect` holds and the status is not `StatDisabled`. -/
def readLoopOnError (clt : Client) : ReadErrOutcome :=
  let clt1 :=
    if clt.status = Status.Connected then
      { clt with status := Status.Disconnected }
    else clt
  ⟨clt1, true, clt1.autoconnect && decide (clt1.status ≠ Status.Disabled)⟩

/-- Modelled from the spec: `Client.Close()` / `disable()` is not under the
repository snapshot; per the spec it "sets state to Disabled, closes
Transport". Only the status change is observable to the read-loop logic. -/
def disable (clt : Client) : Client :=
  { clt with status := Status.Disabled }

/-- Modelled from the spec: a pending entry of the Request Tracker, whose
source is not under the repository snapshot — "{id: unique token, deadline:
timestamp, result channel/future}". -/
structure PendingEntry where
  id : Nat
  deadline : Nat
deriving DecidableEq, Repr

/-- Modelled from the spec: the Request Tracker state, keyed by request id,
with a counter supplying fresh unique ids. -/
structure Tracker where
  nextId : Nat
  pending : List PendingEntry
deriving DecidableEq, Repr

/-- Modelled from the spec: the registration step of `send` — "allocates a
unique request id, registers a pending entry with a deadline derived from a
configurable timeout". Returns the new tracker and the allocated id. -/
def registerRequest (tr : Tracker) (now timeout : Nat) : Tracker × Nat :=
  ({ nextId := tr.nextId + 1,
     pending := { id := tr.nextId, deadline := now + timeout } :: tr.pending },
   tr.nextId)

/-- Modelled from the spec: `complete(id, ...)` — "looks up and removes the
pending entry; if absent (already completed or timed out), the call is a
no-op". Returns the tracker and whether a result was delivered. -/
def completeRequest (tr : Tracker) (id : Nat) : Tracker × Bool :=
  if tr.pending.any (fun e => e.id = id) then
    ({ tr with pending := tr.pending.filter (fun e => e.id ≠ id) }, true)
  else
    (tr, false)

/-- Environment of a single request: the server's reply, as the arrival
time (on the same clock as the deadline) and the reply payload, or `none`
when no reply ever arrives. -/
structure RequestEnv where
  replyArrival : Option (Nat × String)
deriving DecidableEq, Repr

/-- Modelled from the spec: the `request(name, payload)` operation, whose
source is not under the repository snapshot. It registers a pending entry
with deadline `now + timeout`, writes the framed request, and suspends the
caller; the entry is completed by the reply if it arrives by the deadline,
otherwise the per-request timer completes it with `Timeout` (exactly one of
the two wins). The result is the reply payload or the error together with
the tracker after removal of the entry and the frame (request name and
payload) written to the transport. -/
def sendRequest (tr : Tracker) (now timeout : Nat) (name payload : String)
    (env : RequestEnv) : Tracker × (String × String) × Except Err String :=
  let reg := registerRequest tr now timeout
  match env.replyArrival with
  | none => ((completeRequest reg.1 reg.2).1, (name, payload), Except.error Err.Timeout)
  | some (t, p) =>
    if t ≤ now + timeout then
      ((completeRequest reg.1 reg.2).1, (name, payload), Except.ok p)
    else
      ((completeRequest reg.1 reg.2).1, (name, payload), Except.error Err.Timeout)

/-- Incoming messages consumed by the read loop, per the spec's data model:
"tagged union {Reply(id, payload), Notification(payload),
SessionClosedSignal, ErrorSignal}". -/
inductive Message where
  | Reply (id : Nat) (payload : String)
  | Notif (payload : String)
  | SessionClosedSignal
  | ErrorSignal
deriving DecidableEq, Repr

/-- Hook invocations observable during message dispatch. -/
inductive HookCall where
  | onSessionClosed
  | onNotif (payload : String)
deriving DecidableEq, Repr

/-- Modelled from the spec: the dispatch step of `handleMessage`, whose
source is not under the repository snapshot — "replies go to Request
Tracker, session-closed signals clear the Session Store and invoke a hook,
notifications go to a user callback". -/
def dispatch (clt : Client) (tr : Tracker) :
    Message → Client × Tracker × List HookCall
  | Message.Reply id _ => (clt, (completeRequest tr id).1, [])
  | Message.Notif p => (clt, tr, [HookCall.onNotif p])
  | Message.SessionClosedSignal =>
    ({ clt with session := none }, tr, [HookCall.onSessionClosed])
  | Message.ErrorSignal => (clt, tr, [])

/-- Runs the dispatch step over a sequence of incoming messages,
accumulating the hook invocations in order. -/
def dispatchAll (clt : Client) (tr : Tracker) :
    List Message → Client × Tracker × List HookCall
  | [] => (clt, tr, [])
  | m :: ms =>
    let step := dispatch clt tr m
    let rest := dispatchAll step.1 step.2.1 ms
    (rest.1, rest.2.1, step.2.2 ++ rest.2.2)

/-- Dispatch never establishes a session: a session-closed signal clears it
and no other message touches it, so the stored session after a batch is
`none` as soon as the batch contains a `SessionClosedSignal`. -/
theorem dispatchAll_session (clt : Client) (tr : Tracker) (ms : List Message) :
    (dispatchAll clt tr ms).1.session =
      if Message.SessionClosedSignal ∈ ms then none else clt.session := by
  induction ms generalizing clt tr with
  | nil => simp [dispatchAll]
  | cons m ms ih =>
    cases m <;> simp [dispatchAll, dispatch, ih, List.mem_cons]

/-- The `OnSessionClosed` hook fires once per `SessionClosedSignal` in a
dispatched batch, and never otherwise. -/
theorem dispatchAll_closedHookCount (clt : Client) (tr : Tracker)
    (ms : List Message) :
    ((dispatchAll clt tr ms).2.2).count HookCall.onSessionClosed =
      ms.count Message.SessionClosedSignal := by
  induction ms generalizing clt tr with
  | nil => simp [dispatchAll]
  | cons m ms ih =>
    cases m <;>
      simp [dispatchAll, dispatch, ih, List.count_cons, List.count_append]

/-- C1: if `connect()` passes protocol verification and dialing but the
session-restoration request fails, it still returns `nil`, the stored
session is reset to `none`, and a warning is logged. -/
theorem connect_restoration_failure_nonfatal (clt : Client) (env : ConnectEnv)
    (s : Session) (e : Err)
    (h1 : clt.status ≠ Status.Connected)
    (h2 : env.verifyResult = none) (h3 : env.dialResult = none)
    (h4 : clt.session = some s)
    (h5 : env.restorationResult = Except.error e) :
    (connect clt env).result = none ∧
    (connect clt env).client.session = none ∧
    Effect.warnLog ∈ (connect clt env).effects := by
  simp [connect, h1, h2, h3, h4, h5]

/-- Witness for C1 at a concrete disconnected client holding a session and
an environment whose restoration request fails. -/
theorem connect_restoration_failure_nonfatal_witness :
    (connect ⟨Status.Disconnected, some ⟨"k"⟩, true⟩
        ⟨none, none, Except.error Err.SessionRestorationFailed⟩).result = none ∧
    (connect ⟨Status.Disconnected, some ⟨"k"⟩, true⟩
        ⟨none, none, Except.error Err.SessionRestorationFailed⟩).client.session = none ∧
    Effect.warnLog ∈ (connect ⟨Status.Disconnected, some ⟨"k"⟩, true⟩
        ⟨none, none, Except.error Err.SessionRestorationFailed⟩).effects :=
  connect_restoration_failure_nonfatal _ _ ⟨"k"⟩ Err.SessionRestorationFailed
    (by decide) rfl rfl rfl rfl

/-- C2 counterexample: a client in status `Connecting` is not `Disabled`,
yet the read loop's error handler leaves its status `Connecting` instead of
transitioning it to `Disconnected`, because the code stores
`StatDisconnected` only when the status equals `StatConnected`. -/
theorem readLoop_connecting_stays_connecting :
    (Client.mk Status.Connecting none true).status ≠ Status.Disabled ∧
    (readLoopOnError (Client.mk Status.Connecting none true)).client.status ≠
      Status.Disconnected := by
  decide

/-- C2 (amended): on a transport error the read loop transitions the status
to `Disconnected` exactly when the prior status was `Connected`, leaving
any other status (including `Connecting` and `Disconnected`) unchanged, and
it invokes the disconnect hook. -/
theorem readLoop_status_transition (clt : Client) :
    (readLoopOnError clt).client.status =
      (if clt.status = Status.Connected then Status.Disconnected
       else clt.status) ∧
    (readLoopOnError clt).disconnectHookCalled = true := by
  by_cases h : clt.status = Status.Connected <;> simp [readLoopOnError, h]

/-- C3: `connect()` dials only after protocol verification succeeded, and a
synchronous failure (protocol mismatch or dial error) is returned to the
caller with the client completely unchanged, hence not `Connected`. -/
theorem connect_sync_failure (clt : Client) (env : ConnectEnv) :
    (∀ e : Err, (connect clt env).result = some e →
      (connect clt env).client = clt ∧
      (connect clt env).client.status ≠ Status.Connected ∧
      (env.verifyResult = some e ∨
        (env.verifyResult = none ∧ env.dialResult = some e))) ∧
    (Effect.dial ∈ (connect clt env).effects → env.verifyResult = none) := by
  by_cases h : clt.status = Status.Connected
  · simp [connect, h]
  · cases hv : env.verifyResult with
    | some e => simp [connect, h, hv]
    | none =>
      cases hd : env.dialResult with
      | some e => simp [connect, h, hv, hd]
      | none =>
        cases hs : clt.session with
        | none => simp [connect, h, hv, hd, hs]
        | some s =>
          cases hr : env.restorationResult with
          | error e => simp [connect, h, hv, hd, hs, hr]
          | ok rs => simp [connect, h, hv, hd, hs, hr]

/-- Witness for C3 at a concrete client and an environment whose protocol
verification fails with `IncompatibleProtocol`. -/
theorem connect_sync_failure_witness :
    (connect (Client.mk Status.Disconnected none false)
        ⟨some Err.IncompatibleProtocol, none, Except.error Err.DialError⟩).client =
      Client.mk Status.Disconnected none false ∧
    (connect (Client.mk Status.Disconnected none false)
        ⟨some Err.IncompatibleProtocol, none, Except.error Err.DialError⟩).client.status ≠
      Status.Connected ∧
    ((⟨some Err.IncompatibleProtocol, none, Except.error Err.DialError⟩ :
        ConnectEnv).verifyResult = some Err.IncompatibleProtocol ∨
      ((⟨some Err.IncompatibleProtocol, none, Except.error Err.DialError⟩ :
          ConnectEnv).verifyResult = none ∧
        (⟨some Err.IncompatibleProtocol, none, Except.error Err.DialError⟩ :
          ConnectEnv).dialResult = some Err.IncompatibleProtocol)) :=
  (connect_sync_failure (Client.mk Status.Disconnected none false)
      ⟨some Err.IncompatibleProtocol, none, Except.error Err.DialError⟩).1
    Err.IncompatibleProtocol (by decide)

/-- C4: after a read error the reconnection attempt happens exactly when
auto-reconnect is on and the client is not `Disabled`; in particular a
client disabled by `close()`/`disable()` never triggers reconnection. -/
theorem readLoop_reconnect_iff (clt : Client) :
    ((readLoopOnError clt).reconnectAttempted = true ↔
      (clt.autoconnect = true ∧ clt.status ≠ Status.Disabled)) ∧
    (readLoopOnError (disable clt)).reconnectAttempted = false := by
  refine ⟨?_, by simp [readLoopOnError, disable]⟩
  by_cases h : clt.status = Status.Connected <;>
    simp [readLoopOnError, h]

/-- Witness for C4 at a concrete connected auto-reconnecting client: the
reconnection attempt happens, and never happens once the client is
disabled. -/
theorem readLoop_reconnect_iff_witness :
    (readLoopOnError (Client.mk Status.Connected none true)).reconnectAttempted =
      true ∧
    (readLoopOnError (disable (Client.mk Status.Connected none true))).reconnectAttempted =
      false :=
  ⟨((readLoop_reconnect_iff (Client.mk Status.Connected none true)).1).mpr
      (by decide),
   (readLoop_reconnect_iff (Client.mk Status.Connected none true)).2⟩

/-- C5: calling `connect()` on an already connected client returns `nil`
immediately, mutating nothing and performing no effect — no protocol
verification, no dial, no new read loop. -/
theorem connect_idempotent_connected (clt : Client) (env : ConnectEnv)
    (h : clt.status = Status.Connected) :
    connect clt env = ⟨clt, none, []⟩ := by
  simp [connect, h]

/-- Witness for C5 at a concrete connected client whose environment would
fail every external call, showing none of them is even attempted. -/
theorem connect_idempotent_connected_witness :
    connect (Client.mk Status.Connected none true)
        ⟨some Err.IncompatibleProtocol, some Err.DialError,
         Except.error Err.DialError⟩ =
      ⟨Client.mk Status.Connected none true, none, []⟩ :=
  connect_idempotent_connected _ _ rfl

/-- C6: on a successful connect, the session restoration request is issued
exactly when a session is stored; with no stored session `connect()` just
sets `Connected` and returns `nil` after spawning the read loop. -/
theorem connect_restoration_iff_session (clt : Client) (env : ConnectEnv)
    (h1 : clt.status ≠ Status.Connected)
    (h2 : env.verifyResult = none) (h3 : env.dialResult = none) :
    (Effect.restorationRequest ∈ (connect clt env).effects ↔
      clt.session ≠ none) ∧
    (clt.session = none →
      connect clt env =
        ⟨{ clt with status := Status.Connected }, none,
         [Effect.verifyProtocol, Effect.dial, Effect.startReadLoop]⟩) := by
  cases hs : clt.session with
  | none => simp [connect, h1, h2, h3, hs]
  | some s =>
    cases hr : env.restorationResult with
    | error e => simp [connect, h1, h2, h3, hs, hr]
    | ok rs => simp [connect, h1, h2, h3, hs, hr]

/-- Witness for C6 at a concrete session-less client with a successful
environment: the outcome is `Connected`, `nil`, and exactly the three
effects, with no restoration request. -/
theorem connect_restoration_iff_session_witness :
    connect (Client.mk Status.Disconnected none false)
        ⟨none, none, Except.ok ⟨"s"⟩⟩ =
      ⟨Client.mk Status.Connected none false, none,
       [Effect.verifyProtocol, Effect.dial, Effect.startReadLoop]⟩ :=
  (connect_restoration_iff_session (Client.mk Status.Disconnected none false)
      ⟨none, none, Except.ok ⟨"s"⟩⟩ (by decide) rfl rfl).2 rfl

/-- C7: when the dispatched batch carries exactly one session-closed signal
(the server closing the session once), the `OnSessionClosed` hook fires
exactly once and the session store afterwards holds `none`. -/
theorem sessionClosed_hook_once (clt : Client) (tr : Tracker)
    (ms : List Message)
    (h : ms.count Message.SessionClosedSignal = 1) :
    ((dispatchAll clt tr ms).2.2).count HookCall.onSessionClosed = 1 ∧
    (dispatchAll clt tr ms).1.session = none := by
  refine ⟨(dispatchAll_closedHookCount clt tr ms).trans h, ?_⟩
  rw [dispatchAll_session]
  have hm : Message.SessionClosedSignal ∈ ms :=
    List.count_pos_iff.mp (by omega)
  simp [hm]

/-- Witness for C7 at a concrete authenticated client receiving a login
reply followed by a single session-closed signal. -/
theorem sessionClosed_hook_once_witness :
    ((dispatchAll (Client.mk Status.Connected (some ⟨"k"⟩) true)
        (Tracker.mk 1 [⟨0, 2⟩])
        [Message.Reply 0 "ok", Message.SessionClosedSignal]).2.2).count
      HookCall.onSessionClosed = 1 ∧
    (dispatchAll (Client.mk Status.Connected (some ⟨"k"⟩) true)
        (Tracker.mk 1 [⟨0, 2⟩])
        [Message.Reply 0 "ok", Message.SessionClosedSignal]).1.session = none :=
  sessionClosed_hook_once _ _ _ (by decide)

/-- C8: a request named "login" with payload "credentials" whose reply
arrives by the deadline resolves with the reply payload and no error, after
writing exactly that frame. -/
theorem request_login_reply_ok (tr : Tracker) (now timeout t : Nat)
    (p : String) (h : t ≤ now + timeout) :
    (sendRequest tr now timeout "login" "credentials" ⟨some (t, p)⟩).2 =
      (("login", "credentials"), Except.ok p) := by
  simp [sendRequest, h]

/-- Witness for C8: a fresh tracker, a two-tick timeout and a reply landing
at tick one. -/
theorem request_login_reply_ok_witness :
    (sendRequest (Tracker.mk 0 []) 0 2 "login" "credentials"
        ⟨some (1, "welcome")⟩).2 =
      (("login", "credentials"), Except.ok "welcome") :=
  request_login_reply_ok (Tracker.mk 0 []) 0 2 1 "welcome" (by decide)

/-- C9: whenever `connect()` returns an error, the client is returned
exactly as it was — status, session and autoconnect flag untouched. -/
theorem connect_atomic_on_failure (clt : Client) (env : ConnectEnv)
    (h : (connect clt env).result ≠ none) :
    (connect clt env).client = clt := by
  by_cases hc : clt.status = Status.Connected
  · simp [connect, hc] at h
  · cases hv : env.verifyResult with
    | some e => simp [connect, hc, hv]
    | none =>
      cases hd : env.dialResult with
      | some e => simp [connect, hc, hv, hd]
      | none =>
        exfalso
        apply h
        cases hs : clt.session with
        | none => simp [connect, hc, hv, hd, hs]
        | some s =>
          cases hr : env.restorationResult with
          | error e => simp [connect, hc, hv, hd, hs, hr]
          | ok rs => simp [connect, hc, hv, hd, hs, hr]

/-- Witness for C9 at a concrete client whose dial fails: the returned
client equals the input client. -/
theorem connect_atomic_on_failure_witness :
    (connect (Client.mk Status.Disconnected (some ⟨"k"⟩) true)
        ⟨none, some Err.DialError, Except.ok ⟨"s"⟩⟩).client =
      Client.mk Status.Disconnected (some ⟨"k"⟩) true :=
  connect_atomic_on_failure _ _ (by decide)

/-- C10: the `OnDisconnected` hook is invoked on every read-loop error
exit, even for a client already `Disabled`, whose status then stays
`Disabled` and which attempts no reconnection. -/
theorem readLoop_hook_unconditional (clt : Client) :
    (readLoopOnError clt).disconnectHookCalled = true ∧
    (clt.status = Status.Disabled →
      (readLoopOnError clt).client.status = Status.Disabled ∧
      (readLoopOnError clt).reconnectAttempted = false) := by
  refine ⟨by simp [readLoopOnError], fun h => ?_⟩
  simp [readLoopOnError, h]

/-- Witness for C10 at a concrete disabled client with auto-reconnect on:
the hook still fires, the status stays `Disabled`, no reconnection. -/
theorem readLoop_hook_unconditional_witness :
    (readLoopOnError (Client.mk Status.Disabled none true)).disconnectHookCalled =
      true ∧
    ((readLoopOnError (Client.mk Status.Disabled none true)).client.status =
        Status.Disabled ∧
      (readLoopOnError (Client.mk Status.Disabled none true)).reconnectAttempted =
        false) :=
  ⟨(readLoop_hook_unconditional (Client.mk Status.Disabled none true)).1,
   (readLoop_hook_unconditional (Client.mk Status.Disabled none true)).2 rfl⟩

end Webwire
